import Mathlib

/-!
# OpenSim: the `forward` command-line driver and the guess bookkeeping of `MocoCasADiSolver`

Two translation units are embedded:

* `OpenSim/Applications/Forward/forward.cpp` — `main` and `PrintUsage`.  Everything `main`
  does to the outside world is recorded, in program order, as a list of `Event`s; the
  process exit code is an `Int`.  Of the calls inside the `try` block, the `ForwardTool`
  constructor and `run()` may throw an `OpenSim::Exception`; the library-loading and
  printing calls are recorded as events that return normally.
* `Moco/Moco/MocoCasADiSolver/MocoCasADiSolver.h` — the data members of the solver, its
  compiler-generated copy constructor and the inline `setGuess(const std::string&)`.
  The member functions that the header only declares are modelled from the specification;
  where its sentences disagree (what `getGuess()` does when nothing is configured) the
  behaviour is left as a parameter.
-/

namespace OpenSim

/-! ## forward.cpp -/

namespace Forward

/-- An `OpenSim::Exception`, the only exception type caught by `main`. -/
structure Exception where
  message : String
  deriving DecidableEq, Repr

/-- The `Model` handed out by `ForwardTool::getModel()`; only its identity is needed. -/
structure Model where
  name : String
  deriving DecidableEq, Repr

/-- What `main` can observe of a `ForwardTool` built from a setup file (the class itself is
declared in `OpenSim/Tools/ForwardTool.h`, outside the embedded sources): the pointer
returned by `getModel()` (`none` is `NULL`) and whether `run()` returns or throws.
`main` calls `forward.run();` as an expression statement, so nothing that `run()` might
return is looked at. -/
structure ForwardTool where
  getModel : Option Model
  run : Except Exception Unit

/-- The surroundings of one run of the program. -/
structure World where
  /-- Whether `STATIC_OSIM_LIBS` is defined at compile time. -/
  staticOsimLibs : Bool
  /-- `IO::GetFileNameFromURI`. -/
  getFileNameFromURI : String → String
  /-- `GetVersionAndDate()`. -/
  versionAndDate : String
  /-- `ForwardTool forward(setupFileName)`: the constructor reads the setup file and either
  yields a tool or throws. -/
  forwardTool : String → Except Exception ForwardTool

/-- Externally visible actions of `main`, in the order they are performed. -/
inductive Event where
  /-- `LoadOpenSimLibrary(name)`. -/
  | loadOpenSimLibrary (name : String)
  /-- `LoadOpenSimLibraries(argc, argv)`. -/
  | loadOpenSimLibraries (argv : List String)
  /-- Text written to `cout`. -/
  | cout (text : String)
  /-- `new ForwardTool()`: a default tool, built without any setup file. -/
  | newDefaultForwardTool
  /-- `tool->setName(name)`. -/
  | setName (name : String)
  /-- `Object::setSerializeAllDefaults(flag)`. -/
  | setSerializeAllDefaults (flag : Bool)
  /-- `tool->print(fileName)`: writes the tool to the file `fileName`. -/
  | print (fileName : String)
  /-- `Object::PrintPropertyInfo(cout, compoundName)`. -/
  | printPropertyInfo (compoundName : String)
  /-- `new GeneralizedForceAtv()` followed by `delete`. -/
  | generalizedForceAtv
  /-- `ForwardTool forward(setupFileName)`. -/
  | constructForwardTool (setupFileName : String)
  /-- `model->printDetailedInfo(cout)`. -/
  | printDetailedInfo (model : Model)
  /-- `forward.run()`. -/
  | run
  /-- `x.print(cout)` in the catch block. -/
  | exceptionPrint (x : Exception)
  deriving DecidableEq, Repr

/-- How the process ended: the value returned from `main` (or passed to `exit`) and
everything it did before. -/
structure Exit where
  code : Int
  events : List Event
  deriving DecidableEq, Repr

/-- The line of the usage text that documents `-PrintSetup`. -/
def printSetupUsageLine : String :=
  "-PrintSetup, -PS                     Print a default setup file for forward.exe (default_forward.xml).\n"

/-- `PrintUsage(aProgName, aOStream)` with `aOStream = cout`. -/
def PrintUsage (w : World) (aProgName : String) : List Event :=
  let progName := w.getFileNameFromURI aProgName
  [ Event.cout ("\n\n" ++ progName ++ ":\n" ++ w.versionAndDate ++ "\n\n"),
    Event.cout "Option              Argument         Action / Notes\n",
    Event.cout "------              --------         --------------\n",
    Event.cout "-Help, -H                            Print the command-line options for forward.exe.\n",
    Event.cout printSetupUsageLine,
    Event.cout "-Setup, -S          SetupFileName    Specify the name of the XML setup file to use for this forward tool.\n",
    Event.cout "-PropertyInfo, -PI                   Print help information for properties in setup files.\n" ]

/-- The test of the first branch of the option loop. -/
def isHelp (option : String) : Bool :=
  option == "-help" || option == "-h" || option == "-Help" || option == "-H" ||
  option == "-usage" || option == "-u" || option == "-Usage" || option == "-U"

/-- The test of the second branch. -/
def isPrintSetup (option : String) : Bool :=
  option == "-PrintSetup" || option == "-PS"

/-- The test of the third branch. -/
def isSetup (option : String) : Bool :=
  option == "-Setup" || option == "-S"

/-- The test of the fourth branch. -/
def isPropertyInfo (option : String) : Bool :=
  option == "-PropertyInfo" || option == "-PI"

/-- An argument that one of the four branches of the option loop reacts to. -/
def recognised (option : String) : Bool :=
  isHelp option || isPrintSetup option || isSetup option || isPropertyInfo option

/-- How control leaves the `for` loop over the arguments. -/
inductive LoopExit where
  /-- A `return(code)` inside the loop, after performing `events`. -/
  | returned (code : Int) (events : List Event)
  /-- The loop ended (by `break` or by `i` reaching `argc`) with this `setupFileName`. -/
  | fellThrough (setupFileName : String)
  deriving DecidableEq, Repr

/-- The loop `for(i=1;i<argc;i++)`.  The list is `argv[i], …, argv[argc-1]`; its head is
`option` and its tail is non-empty exactly when `(i+1)<argc`.  `setupFileName` is `""`
until the `-Setup` branch assigns it, immediately before `break`. -/
def optionLoop (w : World) (argv0 : String) : List String → LoopExit
  | [] => LoopExit.fellThrough ""
  | option :: rest =>
    if isHelp option then
      LoopExit.returned 0 (PrintUsage w argv0)
    else if isPrintSetup option then
      LoopExit.returned 0
        [ Event.newDefaultForwardTool,
          Event.setName "default",
          Event.setSerializeAllDefaults true,
          Event.print "default_Setup_Forward.xml",
          Event.setSerializeAllDefaults false,
          Event.cout "Created file default_Setup_Forward.xml with default setup",
          Event.cout "\n" ]
    else if isSetup option then
      match rest with
      | [] => LoopExit.fellThrough ""
      | next :: _ => LoopExit.fellThrough next
    else if isPropertyInfo option then
      match rest with
      | [] => LoopExit.returned 0 [Event.printPropertyInfo ""]
      | compoundName :: _ =>
        if compoundName.get 0 = '-' then
          LoopExit.returned 0 [Event.printPropertyInfo ""]
        else
          LoopExit.returned 0 [Event.printPropertyInfo compoundName]
    else
      optionLoop w argv0 rest

/-- The part of `main` after the error check: construct the tool from the setup file,
print the model information and run. -/
def constructAndRun (w : World) (setupFileName : String) : Exit :=
  let start :=
    [ Event.generalizedForceAtv,
      Event.cout ("Constructing tool from setup file " ++ setupFileName ++ ".\n\n"),
      Event.constructForwardTool setupFileName ]
  match w.forwardTool setupFileName with
  | Except.error x => ⟨-1, start ++ [Event.exceptionPrint x]⟩
  | Except.ok forward =>
    match forward.getModel with
    | none => ⟨-1, start ++ [Event.cout "\nforward:  ERROR- failed to load model.\n"]⟩
    | some model =>
      let info :=
        [ Event.cout "-----------------------------------------------------------------------\n",
          Event.cout "Loaded library\n",
          Event.cout "-----------------------------------------------------------------------\n",
          Event.printDetailedInfo model,
          Event.cout "-----------------------------------------------------------------------\n\n",
          Event.run ]
      match forward.run with
      | Except.error x => ⟨-1, start ++ info ++ [Event.exceptionPrint x]⟩
      | Except.ok _ => ⟨0, start ++ info⟩

/-- The library load guarded by `#ifndef STATIC_OSIM_LIBS`. -/
def loadEngine (w : World) : List Event :=
  if w.staticOsimLibs then [] else [Event.loadOpenSimLibrary "osimSimbodyEngine"]

/-- `int main(int argc, char **argv)`, with `argv` the list of the `argc` arguments. -/
def main (w : World) (argv : List String) : Exit :=
  let argv0 := argv.headD ""
  if argv.length < 2 then
    ⟨-1, loadEngine w ++ PrintUsage w argv0⟩
  else
    let loaded := loadEngine w ++ [Event.loadOpenSimLibraries argv]
    match optionLoop w argv0 argv.tail with
    | LoopExit.returned code events => ⟨code, loaded ++ events⟩
    | LoopExit.fellThrough setupFileName =>
      if setupFileName = "" then
        ⟨-1, loaded ++
          Event.cout "\n\nforward.exe: ERROR- A setup file must be specified.\n" :: PrintUsage w argv0⟩
      else
        let r := constructAndRun w setupFileName
        ⟨r.code, loaded ++ r.events⟩

/-- Does the event build a `ForwardTool` (default or from a setup file) or run one? -/
def Event.usesForwardTool : Event → Bool
  | Event.newDefaultForwardTool => true
  | Event.constructForwardTool _ => true
  | Event.run => true
  | _ => false

/-- Does the event build a `ForwardTool` from a setup file, or run one? -/
def Event.usesSetupFile : Event → Bool
  | Event.constructForwardTool _ => true
  | Event.run => true
  | _ => false

/-- Is the event one of the two library-loading calls made before the arguments are
interpreted?  `LoadOpenSimLibraries` receives the whole of `argv`. -/
def Event.isLibraryLoad : Event → Bool
  | Event.loadOpenSimLibrary _ => true
  | Event.loadOpenSimLibraries _ => true
  | _ => false

/-- The names of the files the program writes itself. -/
def filesWritten : List Event → List String
  | [] => []
  | Event.print fileName :: rest => fileName :: filesWritten rest
  | _ :: rest => filesWritten rest

/-- A world used for concrete evaluations: `hopper.xml` loads and runs, `nomodel.xml`
loads without a model, `crash.xml` throws while running, and any other setup file cannot
be read. -/
def sampleWorld : World where
  staticOsimLibs := false
  getFileNameFromURI := fun s => s
  versionAndDate := "version 1.0"
  forwardTool := fun f =>
    if f = "hopper.xml" then Except.ok ⟨some ⟨"hopper"⟩, Except.ok ()⟩
    else if f = "nomodel.xml" then Except.ok ⟨none, Except.ok ()⟩
    else if f = "crash.xml" then Except.ok ⟨some ⟨"hopper"⟩, Except.error ⟨"integration failed"⟩⟩
    else Except.error ⟨"cannot open setup file"⟩

end Forward

/-! ## MocoCasADiSolver.h -/

namespace Moco

/-- One time sample of a trajectory: the time with the state and control vectors there. -/
structure Sample where
  time : Rat
  states : List Rat
  controls : List Rat
  deriving DecidableEq, Repr

/-- Modelled from the spec: the class `MocoIterate` is not part of the embedded sources.
§3: "a named trajectory — ordered sequence of (time, state-vector, control-vector)
samples, of arbitrary length independent of the mesh size". -/
structure MocoIterate where
  name : String
  samples : List Sample
  deriving DecidableEq, Repr

/-- The problem representation a solver evaluates (`MocoProblemRep`, named in the header
as the element type of the jar); only its identity is needed. -/
structure MocoProblemRep where
  name : String
  deriving DecidableEq, Repr

/-- Modelled from the spec: the failures of the guess operations, whose bodies are not part
of the embedded sources.  §4.3: the "problem not ready" error of `createGuess`, the
"no guess available" error named for `getGuess`; §8: the guess-load error for a guess file that
cannot be read.  `other` stands for any further failure of the guess synthesis. -/
inductive MocoError where
  | problemNotReady
  | noGuessAvailable
  | guessLoad (file : String)
  | other (message : String)
  deriving DecidableEq, Repr

/-- Modelled from the spec: `SimTK::ResetOnCopy<T>` is not part of the embedded sources.
§9: "an explicit cache field tagged not-to-be-copied, reset to empty on duplication". -/
structure ResetOnCopy (α : Type) where
  value : α
  deriving DecidableEq, Repr

/-- Copy construction of a `ResetOnCopy` member: the source is ignored and the new member
holds the default value of its type. -/
def ResetOnCopy.copy {α : Type} [Inhabited α] (_source : ResetOnCopy α) : ResetOnCopy α :=
  ⟨default⟩

/-- The two guess members of the solver that `m_guessToUse` can refer to. -/
inductive GuessMember where
  | guessFromAPI
  | guessFromFile
  deriving DecidableEq, Repr

/-- A `SimTK::ReferencePtr<T>` member (the class is not part of the embedded sources): a
non-owning reference, `none` when null. -/
structure ReferencePtr (α : Type) where
  target : Option α
  deriving DecidableEq, Repr

/-- Copy construction of a `ReferencePtr` member: a reference into the source object is
not carried over, the new member is null. -/
def ReferencePtr.copy {α : Type} (_source : ReferencePtr α) : ReferencePtr α :=
  ⟨none⟩

/-- The state of a `MocoCasADiSolver`: the two properties declared in the header, the
`guess_file` property inherited from `MocoDirectCollocationSolver`, and the four private
data members.  A guess member holds either a trajectory or nothing (`none`, the "empty
guess" of the header comments). -/
structure MocoCasADiSolver where
  /-- `OpenSim_DECLARE_PROPERTY(finite_difference_scheme, std::string, …)`. -/
  finite_difference_scheme : String
  /-- `OpenSim_DECLARE_OPTIONAL_PROPERTY(parallel, int, …)`; `none` when unset. -/
  parallel : Option Int
  /-- The `guess_file` property of the base class; `""` when no file is configured. -/
  guess_file : String
  /-- `MocoIterate m_guessFromAPI;` -/
  m_guessFromAPI : Option MocoIterate
  /-- `mutable SimTK::ResetOnCopy<MocoIterate> m_guessFromFile;` -/
  m_guessFromFile : ResetOnCopy (Option MocoIterate)
  /-- `mutable SimTK::ReferencePtr<const MocoIterate> m_guessToUse;` -/
  m_guessToUse : ReferencePtr GuessMember
  /-- `mutable SimTK::ResetOnCopy<ThreadsafeJarPtr> m_jar;` — a null `unique_ptr` is
  `none`, otherwise the problem representations held by the jar. -/
  m_jar : ResetOnCopy (Option (List MocoProblemRep))
  deriving DecidableEq, Repr

/-- What the guess operations depend on beyond the data members of the solver object. -/
structure Surroundings where
  /-- The problem registered with the solver by `resetProblem()`, if any. -/
  problem : Option MocoProblemRep
  /-- The synthesis of a guess of a given type for a registered problem. -/
  synthesize : MocoCasADiSolver → MocoProblemRep → String → Except MocoError MocoIterate
  /-- The iterate stored in a file; `none` when the file cannot be read as an iterate. -/
  readIterate : String → Option MocoIterate
  /-- What `getGuess()` yields on a solver that has neither a guess nor a guess file.  The
  body of `getGuess` is not part of the embedded sources and the texts disagree: header
  line 119 and the `getGuess` entry of §4.3 say an error is raised, header lines 120-121
  say an empty guess is returned, and the `clearGuess` entry of §4.3 and §8 say the
  synthesized default is returned; §9 records the point as open.  It is therefore left
  open here as well. -/
  whenNothingConfigured : MocoCasADiSolver → Except MocoError MocoIterate

namespace MocoCasADiSolver

/-- Modelled from the spec: the constructor `MocoCasADiSolver()` is only declared in the
header.  A new solver has no guess and no guess file (§4.4: `Uninitialized`); the property
defaults are those of the header's property comments (`'central'`, `parallel` unset). -/
def construct : Moco.MocoCasADiSolver where
  finite_difference_scheme := "central"
  parallel := none
  guess_file := ""
  m_guessFromAPI := none
  m_guessFromFile := ⟨none⟩
  m_guessToUse := ⟨none⟩
  m_jar := ⟨none⟩

/-- The compiler-generated copy constructor (the class declares none; `clone()` of
`OpenSim_DECLARE_CONCRETE_OBJECT` uses it): the properties and each data member are
copied with the copy constructor of their own type.  The source is taken by const
reference; the result is the source after the copy together with the new object. -/
def copy (source : Moco.MocoCasADiSolver) : Moco.MocoCasADiSolver × Moco.MocoCasADiSolver :=
  (source,
    { finite_difference_scheme := source.finite_difference_scheme
      parallel := source.parallel
      guess_file := source.guess_file
      m_guessFromAPI := source.m_guessFromAPI
      m_guessFromFile := source.m_guessFromFile.copy
      m_guessToUse := source.m_guessToUse.copy
      m_jar := source.m_jar.copy })

/-- Modelled from the spec: `createGuess` is only declared in the header.  §4.3:
"Precondition: the problem must already be finalized/registered with the solver; otherwise
fails with a 'problem not ready' error"; with a problem registered the iterate of the
requested kind is synthesized.  The function is `const`: the solver is not changed. -/
def createGuess (env : Surroundings) (self : Moco.MocoCasADiSolver) (type : String) :
    Except MocoError MocoIterate :=
  match env.problem with
  | none => Except.error MocoError.problemNotReady
  | some problem => env.synthesize self problem type

/-- Modelled from the spec: `setGuess(MocoIterate)` is only declared in the header.  §4.3:
"installs a user-supplied Iterate as the active API guess; clears any previously
configured guess file"; §3: a file-loaded guess is "invalidated whenever … a new API guess
is set". -/
def setGuess (self : Moco.MocoCasADiSolver) (guess : MocoIterate) : Moco.MocoCasADiSolver :=
  { self with
    guess_file := ""
    m_guessFromAPI := some guess
    m_guessFromFile := ⟨none⟩
    m_guessToUse := ⟨none⟩ }

/-- `void setGuess(const std::string& type) { setGuess(createGuess(type)); }` — the
argument `createGuess(type)` is evaluated first; if it throws, the exception leaves the
function before `setGuess(MocoIterate)` is entered. -/
def setGuessOfType (env : Surroundings) (self : Moco.MocoCasADiSolver) (type : String) :
    Except MocoError Unit × Moco.MocoCasADiSolver :=
  match createGuess env self type with
  | Except.error e => (Except.error e, self)
  | Except.ok guess => (Except.ok (), setGuess self guess)

/-- Modelled from the spec: `setGuessFile` is only declared in the header.  §4.3: "records
a file path to load lazily; empty path clears it. Does not read the file immediately";
the header adds that it clears any previously-set guess. -/
def setGuessFile (self : Moco.MocoCasADiSolver) (file : String) : Moco.MocoCasADiSolver :=
  { self with
    guess_file := file
    m_guessFromAPI := none
    m_guessFromFile := ⟨none⟩
    m_guessToUse := ⟨none⟩ }

/-- Modelled from the spec: `clearGuess` is only declared in the header.  §4.3: "removes
both the API guess and the file reference; subsequent access falls back to the synthesized
default". -/
def clearGuess (self : Moco.MocoCasADiSolver) : Moco.MocoCasADiSolver :=
  { self with
    guess_file := ""
    m_guessFromAPI := none
    m_guessFromFile := ⟨none⟩
    m_guessToUse := ⟨none⟩ }

/-- Modelled from the spec: `getGuess` is only declared in the header.  §4.3: "returns the
active guess, loading from the file path on first access if one is configured and caching
the result"; §8: a guess file that cannot be loaded raises a guess-load error.  For a
solver on which nothing is configured the texts give conflicting answers (an error, an
empty guess, the synthesized default); that case is not decided here but taken from
`Surroundings.whenNothingConfigured`.  The function is `const` and writes only the
`mutable` members. -/
def getGuess (env : Surroundings) (self : Moco.MocoCasADiSolver) :
    Except MocoError MocoIterate × Moco.MocoCasADiSolver :=
  if self.guess_file ≠ "" then
    match self.m_guessFromFile.value with
    | some cached =>
      (Except.ok cached, { self with m_guessToUse := ⟨some GuessMember.guessFromFile⟩ })
    | none =>
      match env.readIterate self.guess_file with
      | none => (Except.error (MocoError.guessLoad self.guess_file), self)
      | some loaded =>
        (Except.ok loaded,
          { self with
            m_guessFromFile := ⟨some loaded⟩
            m_guessToUse := ⟨some GuessMember.guessFromFile⟩ })
  else
    match self.m_guessFromAPI with
    | some guess =>
      (Except.ok guess, { self with m_guessToUse := ⟨some GuessMember.guessFromAPI⟩ })
    | none => (env.whenNothingConfigured self, self)

/-- Modelled from the spec: the value of the parallelism setting is resolved in
`solveImpl()`, which is only declared in the header.  §9: "an explicit per-instance
setting takes precedence over a process-wide default"; §4.2 and the property comment: the
default is 1.  `environmentVariable` is the value of `OPENSIM_MOCO_PARALLEL`, `none` when
it is not set. -/
def resolveParallel (self : Moco.MocoCasADiSolver) (environmentVariable : Option Int) : Int :=
  match self.parallel with
  | some value => value
  | none =>
    match environmentVariable with
    | some value => value
    | none => 1

end MocoCasADiSolver

/-- How the integrand and the differential-algebraic equations are evaluated across grid
points. -/
inductive Evaluation where
  | serial
  | threads (count : Nat)
  deriving DecidableEq, Repr

/-- Modelled from the spec: the meaning of a resolved parallelism value (§4.2 and the
`parallel` property comment): "0: not parallel; 1: use all cores (default); greater than
1: use this number of threads".  Negative values are given no meaning. -/
def evaluationFor (hardwareThreads : Nat) (parallel : Int) : Option Evaluation :=
  if parallel = 0 then some Evaluation.serial
  else if parallel = 1 then some (Evaluation.threads hardwareThreads)
  else if 1 < parallel then some (Evaluation.threads parallel.toNat)
  else none

/-- An iterate used in concrete evaluations. -/
def sampleGuess : MocoIterate :=
  ⟨"api", [⟨0, [0], [1]⟩, ⟨1, [1 / 2], [1]⟩]⟩

/-- The iterate stored in the file `guess.sto` of `sampleSurroundings`. -/
def sampleFileGuess : MocoIterate :=
  ⟨"file", [⟨0, [3], [0]⟩]⟩

/-- Surroundings used in concrete evaluations: a problem is registered, only guesses of
type `bounds` can be synthesized, the only readable guess file is `guess.sto`, and a
solver with nothing configured answers with an empty guess. -/
def sampleSurroundings : Surroundings where
  problem := some ⟨"pendulum"⟩
  synthesize := fun _ _ type =>
    if type = "bounds" then Except.ok ⟨"bounds", []⟩ else Except.error (MocoError.other type)
  readIterate := fun file => if file = "guess.sto" then some sampleFileGuess else none
  whenNothingConfigured := fun _ => Except.ok ⟨"", []⟩

/-- The same surroundings before any problem is registered. -/
def sampleSurroundingsNoProblem : Surroundings :=
  { sampleSurroundings with problem := none }

/-- A solver with a guess file configured and already loaded. -/
def sampleSolver : MocoCasADiSolver :=
  { MocoCasADiSolver.construct with
    parallel := some 4
    guess_file := "guess.sto"
    m_guessFromFile := ⟨some sampleFileGuess⟩
    m_guessToUse := ⟨some GuessMember.guessFromFile⟩ }

end Moco

/-! ## Theorems about forward.cpp -/

namespace Forward

/-! ### Facts about the option loop -/

theorem isHelp_excludes {option : String} (h : isHelp option = true) :
    isPrintSetup option = false ∧ isSetup option = false ∧ isPropertyInfo option = false := by
  simp only [isHelp, Bool.or_eq_true, beq_iff_eq] at h
  rcases h with ((((((rfl | rfl) | rfl) | rfl) | rfl) | rfl) | rfl) | rfl <;> decide

theorem isPrintSetup_excludes {option : String} (h : isPrintSetup option = true) :
    isHelp option = false ∧ isSetup option = false ∧ isPropertyInfo option = false := by
  simp only [isPrintSetup, Bool.or_eq_true, beq_iff_eq] at h
  rcases h with rfl | rfl <;> decide

theorem isSetup_excludes {option : String} (h : isSetup option = true) :
    isHelp option = false ∧ isPrintSetup option = false ∧ isPropertyInfo option = false := by
  simp only [isSetup, Bool.or_eq_true, beq_iff_eq] at h
  rcases h with rfl | rfl <;> decide

theorem isPropertyInfo_excludes {option : String} (h : isPropertyInfo option = true) :
    isHelp option = false ∧ isPrintSetup option = false ∧ isSetup option = false := by
  simp only [isPropertyInfo, Bool.or_eq_true, beq_iff_eq] at h
  rcases h with rfl | rfl <;> decide

theorem not_recognised {option : String} (h : recognised option = false) :
    isHelp option = false ∧ isPrintSetup option = false ∧ isSetup option = false ∧
      isPropertyInfo option = false := by
  simpa [recognised, and_assoc] using h

/-- Arguments that no branch reacts to are stepped over. -/
theorem optionLoop_skip (w : World) (argv0 : String) (skipped rest : List String)
    (h : ∀ a ∈ skipped, recognised a = false) :
    optionLoop w argv0 (skipped ++ rest) = optionLoop w argv0 rest := by
  induction skipped with
  | nil => rfl
  | cons a t ih =>
    obtain ⟨h1, h2, h3, h4⟩ := not_recognised (h a (List.mem_cons_self a t))
    have ht : ∀ b ∈ t, recognised b = false := fun b hb => h b (List.mem_cons_of_mem a hb)
    simp [optionLoop, h1, h2, h3, h4, ih ht]

/-- A loop that meets no recognised option ends with an empty setup file name. -/
theorem optionLoop_unrecognised (w : World) (argv0 : String) (args : List String)
    (h : ∀ a ∈ args, recognised a = false) :
    optionLoop w argv0 args = LoopExit.fellThrough "" := by
  have := optionLoop_skip w argv0 args [] h
  simpa [optionLoop] using this

theorem optionLoop_help (w : World) (argv0 option : String) (rest : List String)
    (h : isHelp option = true) :
    optionLoop w argv0 (option :: rest) = LoopExit.returned 0 (PrintUsage w argv0) := by
  simp [optionLoop, h]

theorem optionLoop_printSetup (w : World) (argv0 option : String) (rest : List String)
    (h : isPrintSetup option = true) :
    optionLoop w argv0 (option :: rest) = LoopExit.returned 0
        [ Event.newDefaultForwardTool,
          Event.setName "default",
          Event.setSerializeAllDefaults true,
          Event.print "default_Setup_Forward.xml",
          Event.setSerializeAllDefaults false,
          Event.cout "Created file default_Setup_Forward.xml with default setup",
          Event.cout "\n" ] := by
  simp [optionLoop, h, (isPrintSetup_excludes h).1]

theorem optionLoop_setup (w : World) (argv0 option : String) (rest : List String)
    (h : isSetup option = true) :
    optionLoop w argv0 (option :: rest) = LoopExit.fellThrough (rest.headD "") := by
  obtain ⟨h1, h2, _⟩ := isSetup_excludes h
  cases rest <;> simp [optionLoop, h, h1, h2]

theorem optionLoop_propertyInfo (w : World) (argv0 option : String) (rest : List String)
    (h : isPropertyInfo option = true) :
    optionLoop w argv0 (option :: rest) = LoopExit.returned 0
      [Event.printPropertyInfo
        (match rest with
         | [] => ""
         | compoundName :: _ => if compoundName.get 0 = '-' then "" else compoundName)] := by
  obtain ⟨h1, h2, h3⟩ := isPropertyInfo_excludes h
  cases rest with
  | nil => simp [optionLoop, h, h1, h2, h3]
  | cons c t =>
    by_cases hc : c.get 0 = '-' <;> simp [optionLoop, h, h1, h2, h3, hc]

/-- With at least one argument after the program name, `main` is the option loop followed
by the error check and the run. -/
theorem main_cons (w : World) (prog a : String) (args : List String) :
    main w (prog :: a :: args) =
      match optionLoop w prog (a :: args) with
      | LoopExit.returned code events =>
        ⟨code, (loadEngine w ++ [Event.loadOpenSimLibraries (prog :: a :: args)]) ++ events⟩
      | LoopExit.fellThrough setupFileName =>
        if setupFileName = "" then
          ⟨-1, (loadEngine w ++ [Event.loadOpenSimLibraries (prog :: a :: args)]) ++
            Event.cout "\n\nforward.exe: ERROR- A setup file must be specified.\n" ::
              PrintUsage w prog⟩
        else
          ⟨(constructAndRun w setupFileName).code,
            (loadEngine w ++ [Event.loadOpenSimLibraries (prog :: a :: args)]) ++
              (constructAndRun w setupFileName).events⟩ := by
  simp [main]

/-- The same, for any non-empty list of arguments after the program name. -/
theorem main_of_loop (w : World) (prog : String) (args : List String) (h : args ≠ []) :
    main w (prog :: args) =
      match optionLoop w prog args with
      | LoopExit.returned code events =>
        ⟨code, (loadEngine w ++ [Event.loadOpenSimLibraries (prog :: args)]) ++ events⟩
      | LoopExit.fellThrough setupFileName =>
        if setupFileName = "" then
          ⟨-1, (loadEngine w ++ [Event.loadOpenSimLibraries (prog :: args)]) ++
            Event.cout "\n\nforward.exe: ERROR- A setup file must be specified.\n" ::
              PrintUsage w prog⟩
        else
          ⟨(constructAndRun w setupFileName).code,
            (loadEngine w ++ [Event.loadOpenSimLibraries (prog :: args)]) ++
              (constructAndRun w setupFileName).events⟩ := by
  cases args with
  | nil => exact absurd rfl h
  | cons a t => exact main_cons w prog a t

theorem main_returned (w : World) (prog : String) (args : List String) (code : Int)
    (events : List Event) (h : optionLoop w prog args = LoopExit.returned code events) :
    main w (prog :: args) =
      ⟨code, (loadEngine w ++ [Event.loadOpenSimLibraries (prog :: args)]) ++ events⟩ := by
  have hne : args ≠ [] := by
    rintro rfl
    simp [optionLoop] at h
  rw [main_of_loop w prog args hne, h]

theorem main_no_setup_file (w : World) (prog : String) (args : List String) (hne : args ≠ [])
    (h : optionLoop w prog args = LoopExit.fellThrough "") :
    main w (prog :: args) =
      ⟨-1, (loadEngine w ++ [Event.loadOpenSimLibraries (prog :: args)]) ++
        Event.cout "\n\nforward.exe: ERROR- A setup file must be specified.\n" ::
          PrintUsage w prog⟩ := by
  rw [main_of_loop w prog args hne, h]
  simp

theorem main_setup_file (w : World) (prog : String) (args : List String) (file : String)
    (hfile : file ≠ "") (h : optionLoop w prog args = LoopExit.fellThrough file) :
    main w (prog :: args) =
      ⟨(constructAndRun w file).code,
        (loadEngine w ++ [Event.loadOpenSimLibraries (prog :: args)]) ++
          (constructAndRun w file).events⟩ := by
  have hne : args ≠ [] := by
    rintro rfl
    simp only [optionLoop, LoopExit.fellThrough.injEq] at h
    exact hfile h.symm
  rw [main_of_loop w prog args hne, h]
  simp [hfile]

theorem constructAndRun_code_eq_zero_iff (w : World) (file : String) :
    (constructAndRun w file).code = 0 ↔
      ∃ tool model, w.forwardTool file = Except.ok tool ∧ tool.getModel = some model ∧
        tool.run = Except.ok () := by
  unfold constructAndRun
  cases hc : w.forwardTool file with
  | error x => simp
  | ok tool =>
    cases hm : tool.getModel with
    | none => simp [hm]
    | some model =>
      cases hr : tool.run with
      | error x => simp [hm, hr]
      | ok u => simp [hm, hr]

theorem constructAndRun_code (w : World) (file : String) :
    (constructAndRun w file).code = 0 ∨ (constructAndRun w file).code = -1 := by
  unfold constructAndRun
  cases hc : w.forwardTool file with
  | error x => simp
  | ok tool =>
    cases hm : tool.getModel with
    | none => simp [hm]
    | some model =>
      cases hr : tool.run with
      | error x => simp [hm, hr]
      | ok u => simp [hm, hr]

theorem loadEngine_isLibraryLoad (w : World) : ∀ e ∈ loadEngine w, e.isLibraryLoad = true := by
  intro e he
  unfold loadEngine at he
  split at he
  · simp at he
  · simp only [List.mem_singleton] at he
    subst he
    rfl

theorem loadEngine_usesForwardTool (w : World) :
    ∀ e ∈ loadEngine w, e.usesForwardTool = false := by
  intro e he
  have h := loadEngine_isLibraryLoad w e he
  cases e <;> simp_all [Event.isLibraryLoad, Event.usesForwardTool]

theorem PrintUsage_usesForwardTool (w : World) (prog : String) :
    ∀ e ∈ PrintUsage w prog, e.usesForwardTool = false := by
  intro e he
  simp only [PrintUsage, List.mem_cons, List.mem_singleton, List.not_mem_nil, or_false] at he
  rcases he with rfl | rfl | rfl | rfl | rfl | rfl | rfl <;> rfl

theorem usesSetupFile_of_usesForwardTool {e : Event} (h : e.usesForwardTool = false) :
    e.usesSetupFile = false := by
  cases e <;> simp_all [Event.usesSetupFile, Event.usesForwardTool]

/-- C6: when the option scan reaches `-Setup` (or `-S`) followed by a non-empty file name,
`main` exits with code 0 exactly when constructing the `ForwardTool` from that file does
not throw, `getModel()` is non-null and `run()` returns without throwing; in every other
case the exit code is -1. -/
theorem main_exit_code_zero_iff_run_succeeds (w : World) (prog option file : String)
    (skipped rest : List String)
    (hskip : ∀ a ∈ skipped, recognised a = false) (hopt : isSetup option = true)
    (hfile : file ≠ "") :
    ((main w (prog :: (skipped ++ option :: file :: rest))).code = 0 ↔
        ∃ tool model, w.forwardTool file = Except.ok tool ∧ tool.getModel = some model ∧
          tool.run = Except.ok ()) ∧
    ((¬ ∃ tool model, w.forwardTool file = Except.ok tool ∧ tool.getModel = some model ∧
          tool.run = Except.ok ()) →
      (main w (prog :: (skipped ++ option :: file :: rest))).code = -1) := by
  have hloop : optionLoop w prog (skipped ++ option :: file :: rest) =
      LoopExit.fellThrough file := by
    rw [optionLoop_skip w prog skipped _ hskip, optionLoop_setup w prog option _ hopt]
    rfl
  rw [main_setup_file w prog _ file hfile hloop]
  refine ⟨constructAndRun_code_eq_zero_iff w file, fun hno => ?_⟩
  rcases constructAndRun_code w file with h0 | h1
  · exact absurd ((constructAndRun_code_eq_zero_iff w file).mp h0) hno
  · exact h1

/-- Evaluation of C6 on a setup file that loads and runs, after one skipped argument. -/
theorem main_exit_code_zero_iff_run_succeeds_witness :
    ((main sampleWorld ("forward" :: (["-v"] ++ "-S" :: "hopper.xml" :: ["-help"]))).code = 0 ↔
        ∃ tool model, sampleWorld.forwardTool "hopper.xml" = Except.ok tool ∧
          tool.getModel = some model ∧ tool.run = Except.ok ()) ∧
    ((¬ ∃ tool model, sampleWorld.forwardTool "hopper.xml" = Except.ok tool ∧
          tool.getModel = some model ∧ tool.run = Except.ok ()) →
      (main sampleWorld ("forward" :: (["-v"] ++ "-S" :: "hopper.xml" :: ["-help"]))).code = -1) :=
  main_exit_code_zero_iff_run_succeeds sampleWorld "forward" "-S" "hopper.xml" ["-v"] ["-help"]
    (by decide) (by decide) (by decide)

/-- C7: when the arguments yield no setup file name — there are none after the program
name, none of them is a recognised option, the first recognised one is `-Setup`/`-S` in
last position, or it is `-Setup`/`-S` followed by the empty string — `main` exits with
code -1, the last thing it prints is the usage text, and it neither constructs nor runs a
`ForwardTool`. -/
theorem main_usage_error_without_setup_file (w : World) (prog : String) (args : List String)
    (h : args = [] ∨ (∀ a ∈ args, recognised a = false) ∨
      (∃ skipped option, args = skipped ++ [option] ∧
        (∀ a ∈ skipped, recognised a = false) ∧ isSetup option = true) ∨
      (∃ skipped option rest, args = skipped ++ option :: "" :: rest ∧
        (∀ a ∈ skipped, recognised a = false) ∧ isSetup option = true)) :
    (main w (prog :: args)).code = -1 ∧
    PrintUsage w prog <:+ (main w (prog :: args)).events ∧
    ∀ e ∈ (main w (prog :: args)).events, e.usesForwardTool = false := by
  by_cases hne : args = []
  · subst hne
    refine ⟨rfl, ⟨loadEngine w, rfl⟩, ?_⟩
    intro e he
    simp only [main, List.length_singleton, Nat.one_lt_ofNat, if_true, List.headD_cons,
      List.mem_append] at he
    rcases he with he | he
    · exact loadEngine_usesForwardTool w e he
    · exact PrintUsage_usesForwardTool w prog e he
  · have hloop : optionLoop w prog args = LoopExit.fellThrough "" := by
      rcases h with h | h | ⟨skipped, option, rfl, hskip, hopt⟩ |
          ⟨skipped, option, rest, rfl, hskip, hopt⟩
      · exact absurd h hne
      · exact optionLoop_unrecognised w prog args h
      · rw [optionLoop_skip w prog skipped _ hskip, optionLoop_setup w prog option _ hopt]
        rfl
      · rw [optionLoop_skip w prog skipped _ hskip, optionLoop_setup w prog option _ hopt]
        rfl
    rw [main_no_setup_file w prog args hne hloop]
    refine ⟨rfl, ⟨(loadEngine w ++ [Event.loadOpenSimLibraries (prog :: args)]) ++
      [Event.cout "\n\nforward.exe: ERROR- A setup file must be specified.\n"], by simp⟩, ?_⟩
    intro e he
    simp only [List.mem_append, List.mem_cons, List.not_mem_nil, or_false] at he
    rcases he with (he | rfl) | rfl | he
    · exact loadEngine_usesForwardTool w e he
    · rfl
    · rfl
    · exact PrintUsage_usesForwardTool w prog e he

/-- Evaluation of C7 on `forward -x -S ""  hopper.xml`. -/
theorem main_usage_error_without_setup_file_witness :
    (main sampleWorld ("forward" :: ["-x", "-S", "", "hopper.xml"])).code = -1 ∧
    PrintUsage sampleWorld "forward" <:+
      (main sampleWorld ("forward" :: ["-x", "-S", "", "hopper.xml"])).events ∧
    ∀ e ∈ (main sampleWorld ("forward" :: ["-x", "-S", "", "hopper.xml"])).events,
      e.usesForwardTool = false :=
  main_usage_error_without_setup_file sampleWorld "forward" ["-x", "-S", "", "hopper.xml"]
    (Or.inr (Or.inr (Or.inr ⟨["-x"], "-S", ["hopper.xml"], rfl, by decide, by decide⟩)))

/-- C8: when the first recognised option is a help/usage flag, `-PrintSetup`/`-PS` or
`-PropertyInfo`/`-PI`, `main` exits with code 0 and neither constructs a `ForwardTool`
from a setup file nor runs one, whatever follows the option. -/
theorem main_informational_option_exits_zero (w : World) (prog option : String)
    (skipped rest : List String)
    (hskip : ∀ a ∈ skipped, recognised a = false)
    (hopt : isHelp option = true ∨ isPrintSetup option = true ∨ isPropertyInfo option = true) :
    (main w (prog :: (skipped ++ option :: rest))).code = 0 ∧
    ∀ e ∈ (main w (prog :: (skipped ++ option :: rest))).events, e.usesSetupFile = false := by
  have key : ∃ events, optionLoop w prog (skipped ++ option :: rest) =
      LoopExit.returned 0 events ∧ ∀ e ∈ events, e.usesSetupFile = false := by
    rw [optionLoop_skip w prog skipped _ hskip]
    rcases hopt with h | h | h
    · exact ⟨_, optionLoop_help w prog option rest h, fun e he =>
        usesSetupFile_of_usesForwardTool (PrintUsage_usesForwardTool w prog e he)⟩
    · refine ⟨_, optionLoop_printSetup w prog option rest h, ?_⟩
      intro e he
      simp only [List.mem_cons, List.mem_singleton, List.not_mem_nil, or_false] at he
      rcases he with rfl | rfl | rfl | rfl | rfl | rfl | rfl <;> rfl
    · refine ⟨_, optionLoop_propertyInfo w prog option rest h, ?_⟩
      intro e he
      simp only [List.mem_singleton] at he
      subst he
      rfl
  obtain ⟨events, hloop, hev⟩ := key
  rw [main_returned w prog _ 0 events hloop]
  refine ⟨rfl, ?_⟩
  intro e he
  simp only [List.mem_append, List.mem_singleton] at he
  rcases he with (he | rfl) | he
  · exact usesSetupFile_of_usesForwardTool (loadEngine_usesForwardTool w e he)
  · rfl
  · exact hev e he

/-- Evaluation of C8 on `forward -x -PS -S hopper.xml`. -/
theorem main_informational_option_exits_zero_witness :
    (main sampleWorld ("forward" :: (["-x"] ++ "-PS" :: ["-S", "hopper.xml"]))).code = 0 ∧
    ∀ e ∈ (main sampleWorld ("forward" :: (["-x"] ++ "-PS" :: ["-S", "hopper.xml"]))).events,
      e.usesSetupFile = false :=
  main_informational_option_exits_zero sampleWorld "forward" "-PS" ["-x"] ["-S", "hopper.xml"]
    (by decide) (by decide)

/-- C9 (what the code does instead): on `forward -PS` the only file written is
`default_Setup_Forward.xml`, whereas the usage text printed by the same program documents
`-PrintSetup, -PS` with the file name `default_forward.xml`; no file of that name is
written. -/
theorem printSetup_file_differs_from_usage_text :
    filesWritten (main sampleWorld ["forward", "-PS"]).events = ["default_Setup_Forward.xml"] ∧
    "default_forward.xml" ∉ filesWritten (main sampleWorld ["forward", "-PS"]).events ∧
    Event.cout printSetupUsageLine ∈ PrintUsage sampleWorld "forward" ∧
    printSetupUsageLine =
      "-PrintSetup, -PS                     Print a default setup file for forward.exe (" ++
        "default_forward.xml" ++ ").\n" := by
  refine ⟨by decide, by decide, by decide, by decide⟩

end Forward

/-! ## Theorems about MocoCasADiSolver -/

namespace Moco

namespace MocoCasADiSolver

/-- C1: copying a solver yields a solver with the same API guess (`m_guessFromAPI`), an
empty file-guess cache (`m_guessFromFile`) and the same guess file path; the reference to
the guess in use and the jar are reset as well, and the solver that was copied is left as
it was. -/
theorem copy_keeps_API_guess_and_resets_file_cache (source : Moco.MocoCasADiSolver) :
    (copy source).2.m_guessFromAPI = source.m_guessFromAPI ∧
    (copy source).2.m_guessFromFile.value = none ∧
    (copy source).2.guess_file = source.guess_file ∧
    (copy source).2.m_guessToUse.target = none ∧
    (copy source).2.m_jar.value = none ∧
    (copy source).1 = source :=
  ⟨rfl, rfl, rfl, rfl, rfl, rfl⟩

/-- C2: on a solver with a guess file configured, `getGuess()` answers from that file
(from the cache, or by reading it); after `setGuess(g)` the guess file path is empty and
`getGuess()` returns `g`, whatever the file that was configured before contains. -/
theorem setGuess_clears_guess_file (env : Surroundings) (self : Moco.MocoCasADiSolver)
    (g : MocoIterate) (hfile : self.guess_file ≠ "") :
    (setGuess self g).guess_file = "" ∧
    (getGuess env (setGuess self g)).1 = Except.ok g ∧
    (getGuess env self).1 =
      match self.m_guessFromFile.value with
      | some cached => Except.ok cached
      | none =>
        match env.readIterate self.guess_file with
        | some loaded => Except.ok loaded
        | none => Except.error (MocoError.guessLoad self.guess_file) := by
  refine ⟨rfl, ?_, ?_⟩
  · simp [getGuess, setGuess]
  · unfold getGuess
    rw [if_pos hfile]
    cases self.m_guessFromFile.value with
    | some cached => rfl
    | none =>
      cases env.readIterate self.guess_file with
      | some loaded => rfl
      | none => rfl

/-- Evaluation of C2 on a solver whose guess file `guess.sto` is readable and cached. -/
theorem setGuess_clears_guess_file_witness :
    sampleSolver.guess_file ≠ "" ∧
    (setGuess sampleSolver sampleGuess).guess_file = "" ∧
    (getGuess sampleSurroundings (setGuess sampleSolver sampleGuess)).1 =
      Except.ok sampleGuess ∧
    (getGuess sampleSurroundings sampleSolver).1 = Except.ok sampleFileGuess :=
  ⟨by simp [sampleSolver],
    setGuess_clears_guess_file sampleSurroundings sampleSolver sampleGuess
      (by simp [sampleSolver])⟩

/-- C3: `setGuess(type)` behaves as `setGuess(createGuess(type))`: when `createGuess`
yields a guess the solver ends in the state `setGuess` gives for that guess; when
`createGuess` fails the same error is raised and the solver is unchanged; in particular
without a registered problem the error is "problem not ready". -/
theorem setGuessOfType_eq_setGuess_createGuess (env : Surroundings)
    (self : Moco.MocoCasADiSolver) (type : String) :
    (∀ g, createGuess env self type = Except.ok g →
      setGuessOfType env self type = (Except.ok (), setGuess self g)) ∧
    (∀ e, createGuess env self type = Except.error e →
      setGuessOfType env self type = (Except.error e, self)) ∧
    (env.problem = none →
      setGuessOfType env self type = (Except.error MocoError.problemNotReady, self)) := by
  refine ⟨?_, ?_, ?_⟩
  · intro g hg
    simp [setGuessOfType, hg]
  · intro e he
    simp [setGuessOfType, he]
  · intro hp
    simp [setGuessOfType, createGuess, hp]

/-- Evaluation of C3 with a registered problem (guess type `bounds`) and without one. -/
theorem setGuessOfType_eq_setGuess_createGuess_witness :
    setGuessOfType sampleSurroundings sampleSolver "bounds" =
      (Except.ok (), setGuess sampleSolver ⟨"bounds", []⟩) ∧
    setGuessOfType sampleSurroundings sampleSolver "fancy" =
      (Except.error (MocoError.other "fancy"), sampleSolver) ∧
    setGuessOfType sampleSurroundingsNoProblem sampleSolver "bounds" =
      (Except.error MocoError.problemNotReady, sampleSolver) :=
  ⟨(setGuessOfType_eq_setGuess_createGuess sampleSurroundings sampleSolver "bounds").1 _ rfl,
    (setGuessOfType_eq_setGuess_createGuess sampleSurroundings sampleSolver "fancy").2.1 _ rfl,
    (setGuessOfType_eq_setGuess_createGuess sampleSurroundingsNoProblem sampleSolver
      "bounds").2.2 rfl⟩

/-- C5: the parallelism value is the `parallel` property when it is set, whatever the
environment variable holds; otherwise the value of the environment variable when that is
set; otherwise 1.  The value 0 means serial evaluation, 1 means as many threads as the
hardware offers, and a value `n > 1` means `n` threads. -/
theorem resolveParallel_rule (self : Moco.MocoCasADiSolver) (environmentVariable : Option Int)
    (hardwareThreads : Nat) (n : Int) (hn : 1 < n) :
    (∀ p, self.parallel = some p → resolveParallel self environmentVariable = p) ∧
    (self.parallel = none → ∀ e, environmentVariable = some e →
      resolveParallel self environmentVariable = e) ∧
    (self.parallel = none → environmentVariable = none →
      resolveParallel self environmentVariable = 1) ∧
    evaluationFor hardwareThreads 0 = some Evaluation.serial ∧
    evaluationFor hardwareThreads 1 = some (Evaluation.threads hardwareThreads) ∧
    evaluationFor hardwareThreads n = some (Evaluation.threads n.toNat) := by
  refine ⟨?_, ?_, ?_, ?_, ?_, ?_⟩
  · intro p hp
    simp [resolveParallel, hp]
  · intro hp e he
    simp [resolveParallel, hp, he]
  · intro hp he
    simp [resolveParallel, hp, he]
  · simp [evaluationFor]
  · simp [evaluationFor]
  · have h0 : n ≠ 0 := by omega
    have h1 : n ≠ 1 := by omega
    simp [evaluationFor, h0, h1, hn]

/-- Evaluation of C5 on a solver with `parallel = 4` while the environment variable is 2,
on a machine with 8 hardware threads. -/
theorem resolveParallel_rule_witness :
    resolveParallel sampleSolver (some 2) = 4 ∧
    resolveParallel construct (some 2) = 2 ∧
    resolveParallel construct none = 1 ∧
    evaluationFor 8 (resolveParallel sampleSolver (some 2)) = some (Evaluation.threads 4) :=
  ⟨(resolveParallel_rule sampleSolver (some 2) 8 4 (by decide)).1 4 rfl,
    (resolveParallel_rule construct (some 2) 8 4 (by decide)).2.1 rfl 2 rfl,
    (resolveParallel_rule construct none 8 4 (by decide)).2.2.1 rfl rfl,
    (resolveParallel_rule sampleSolver (some 2) 8 4 (by decide)).2.2.2.2.2⟩

end MocoCasADiSolver

end Moco

end OpenSim
